import Mathlib

/-!
Verification of the core pagination and composition engine of the
PDF_Merger repository (src/pdf_merger.py), as a shallow embedding.

Documents are modelled as a source path plus `Option (List α)`:
`none` means the source cannot be opened/parsed (both when counting
pages and when reading them for emission), `some ps` means the source
yields the pages `ps` in order.  Rendering on a reportlab canvas is
modelled as the list of drawing operations issued, parameterised by the
font-metric function `stringWidth`.  The assembler threads the state
`(pages appended to the writer so far, current_page)` exactly as the
Python code threads `writer` and `current_page`.
-/

namespace PdfMerger

/-- The footer parameters `(page_num, total_pages, report_title)` passed to
`create_page_number_overlay` and `create_cover_page`. -/
structure FooterSpec where
  page_number : Nat
  total_pages : Nat
  report_title : String
deriving DecidableEq, Repr

/-- One reportlab canvas drawing operation, in the order issued.
Coordinates are in points (`ℚ`), colors are RGB triples in `[0,1]`. -/
inductive DrawOp where
  | setFillColorRGB (r g b : ℚ)
  | rect (x y w h : ℚ) (fill stroke : Bool)
  | setFont (font : String) (size : ℚ)
  | drawString (x y : ℚ) (text : String)
  | setStrokeColorRGB (r g b : ℚ)
  | line (x1 y1 x2 y2 : ℚ)
deriving DecidableEq, Repr

/-- `reportlab.lib.units.inch` = 72 points. -/
def inch : ℚ := 72

/-- Width of `reportlab.lib.pagesizes.letter` in points. -/
def letterW : ℚ := 612

/-- Height of `reportlab.lib.pagesizes.letter` in points. -/
def letterH : ℚ := 792

/-- `create_page_number_overlay(page_num, total_pages, report_title="")`:
the drawing operations issued on the overlay canvas, given the canvas
font-metric function `sw` (text, font, size ↦ rendered width). -/
def create_page_number_overlay (sw : String → String → ℚ → ℚ)
    (page_num total_pages : Nat) (report_title : String) : List DrawOp :=
  let w := letterW
  let page_text := s!"Page {page_num} of {total_pages}"
  let text_width := sw page_text "Helvetica" 10
  [DrawOp.setFillColorRGB 1 1 1,
   DrawOp.rect 0 0 w (7/10 * inch) true false,
   DrawOp.setFont "Helvetica" 10,
   DrawOp.setFillColorRGB 0 0 0]
  ++ (if report_title ≠ "" then
        [DrawOp.drawString (1/2 * inch) (1/4 * inch) report_title]
      else [])
  ++ [DrawOp.drawString ((w - text_width) / 2) (1/4 * inch) page_text,
      DrawOp.setStrokeColorRGB (1/2) (1/2) (1/2),
      DrawOp.line (1/2 * inch) (1/2 * inch) (w - 1/2 * inch) (1/2 * inch)]

/-- `create_cover_page(title, page_num, total_pages, report_title="")`:
the drawing operations issued on the cover-page canvas. -/
def create_cover_page (sw : String → String → ℚ → ℚ) (title : String)
    (page_num total_pages : Nat) (report_title : String) : List DrawOp :=
  let w := letterW
  let h := letterH
  let title_width := sw title "Helvetica-Bold" 24
  let page_text := s!"Page {page_num} of {total_pages}"
  let text_width := sw page_text "Helvetica" 10
  [DrawOp.setFont "Helvetica-Bold" 24,
   DrawOp.drawString ((w - title_width) / 2) (h / 2) title,
   DrawOp.setFillColorRGB 1 1 1,
   DrawOp.rect 0 0 w (7/10 * inch) true false,
   DrawOp.setFont "Helvetica" 10,
   DrawOp.setFillColorRGB 0 0 0]
  ++ (if report_title ≠ "" then
        [DrawOp.drawString (1/2 * inch) (1/4 * inch) report_title]
      else [])
  ++ [DrawOp.drawString ((w - text_width) / 2) (1/4 * inch) page_text,
      DrawOp.setStrokeColorRGB (1/2) (1/2) (1/2),
      DrawOp.line (1/2 * inch) (1/2 * inch) (w - 1/2 * inch) (1/2 * inch)]

/-- The two title-drawing operations that `create_cover_page` performs
before painting the footer. -/
def cover_title_ops (sw : String → String → ℚ → ℚ) (title : String) :
    List DrawOp :=
  [DrawOp.setFont "Helvetica-Bold" 24,
   DrawOp.drawString ((letterW - sw title "Helvetica-Bold" 24) / 2)
     (letterH / 2) title]

/-- A PDF source: its path and, if it can be opened and parsed, its pages
(`none` models a source on which `PdfReader` raises). -/
structure Doc (α : Type) where
  name : String
  pages : Option (List α)
deriving DecidableEq, Repr

/-- `get_page_count(pdf_path)`: the page count, or `0` when reading or
parsing the source raises (the `except` branch). -/
def get_page_count {α : Type} (d : Doc α) : Nat :=
  match d.pages with
  | none => 0
  | some ps => ps.length

/-- `calculate_total_pages(main_pdf, trial_pdfs)`: main page count, plus
page count + 1 (cover) for each trial. -/
def calculate_total_pages {α : Type} (main_pdf : Doc α)
    (trial_pdfs : List (Doc α)) : Nat :=
  trial_pdfs.foldl (fun total d => total + (get_page_count d + 1))
    (get_page_count main_pdf)

/-- `os.path.basename` (posix): the part of the path after the last
separator. -/
def basename (p : String) : String :=
  String.mk ((p.toList.reverse.takeWhile (fun ch => ch ≠ '/')).reverse)

/-- The root component of `os.path.splitext`: strips the extension at the
last dot, except when every character before that dot is itself a dot
(so dotfiles such as `.bashrc` keep their name). -/
def splitext_root (p : String) : String :=
  match p.toList.reverse.dropWhile (fun ch => ch ≠ '.') with
  | [] => p
  | _ :: before_rev =>
    if before_rev.any (fun ch => ch ≠ '.') then String.mk before_rev.reverse
    else p

/-- What kind of page was appended to the writer: a source page (merged
with its footer overlay) or a generated cover page. -/
inductive PageKind (α : Type) where
  | content (p : α)
  | cover (title : String)
deriving DecidableEq, Repr

/-- One page appended to the output writer, together with the
`FooterSpec` used to render its overlay (for content pages) or its
footer (for cover pages). -/
structure OutPage (α : Type) where
  kind : PageKind α
  spec : FooterSpec
deriving DecidableEq, Repr

/-- The main-PDF / trial-body loop: for each source page, build the
overlay for `current_page`, merge, append, and increment.  State is
`(pages appended so far, current_page)`. -/
def stamp_pages {α : Type} (total_pages : Nat) (report_title : String)
    (st : List (OutPage α) × Nat) (ps : List α) : List (OutPage α) × Nat :=
  ps.foldl
    (fun acc p =>
      (acc.1 ++ [⟨PageKind.content p, ⟨acc.2, total_pages, report_title⟩⟩],
       acc.2 + 1))
    st

/-- The body of the per-trial loop in `create_final_report`: derive the
title, append the cover page, then read and stamp the trial's pages.
When reading the trial raises (`d.pages = none`), the exception is
caught at the per-trial boundary: the already-appended cover stays and
the state after the cover is returned. -/
def emit_trial {α : Type} (total_pages : Nat) (report_title : String)
    (st : List (OutPage α) × Nat) (d : Doc α) : List (OutPage α) × Nat :=
  let title := splitext_root (basename d.name)
  let st1 : List (OutPage α) × Nat :=
    (st.1 ++ [⟨PageKind.cover title, ⟨st.2, total_pages, report_title⟩⟩],
     st.2 + 1)
  match d.pages with
  | none => st1
  | some ps => stamp_pages total_pages report_title st1 ps

/-- Phases 1 and 2 of `create_final_report`: the pages composed into the
writer before the output file is written.  `none` when reading the main
PDF raises (the function returns `None` before reaching the trials or
the write). -/
def composed_pages {α : Type} (main_pdf : Doc α) (trial_pdfs : List (Doc α))
    (report_title : String) : Option (List (OutPage α)) :=
  let total_pages := calculate_total_pages main_pdf trial_pdfs
  match main_pdf.pages with
  | none => none
  | some mp =>
    let st0 := stamp_pages total_pages report_title ([], 1) mp
    let stF := trial_pdfs.foldl (emit_trial total_pages report_title) st0
    some stF.1

/-- `create_final_report(main_pdf, trial_pdfs, output_path, report_title)`:
composes the pages, then writes the result; `write_ok` models whether
`open(output_path, "wb")`/`writer.write` succeeds.  Returns the written
pages on success and `none` (Python `None`) on any fatal failure. -/
def create_final_report {α : Type} (main_pdf : Doc α)
    (trial_pdfs : List (Doc α)) (write_ok : Bool) (report_title : String) :
    Option (List (OutPage α)) :=
  match composed_pages main_pdf trial_pdfs report_title with
  | none => none
  | some pages => if write_ok then some pages else none

/-- Whether a run reaches Phase 3 and opens the destination for writing:
the `open(output_path, "wb")` line is reached exactly when processing
the main PDF did not raise. -/
def reaches_write_phase {α : Type} (main_pdf : Doc α) : Bool :=
  main_pdf.pages.isSome

/-- Closed form of `stamp_pages` starting at counter `c` with an empty
accumulator: the source pages in order, numbered `c, c+1, ...`. -/
def stampSpec {α : Type} (total_pages : Nat) (report_title : String) :
    Nat → List α → List (OutPage α)
  | _, [] => []
  | c, p :: ps =>
    ⟨PageKind.content p, ⟨c, total_pages, report_title⟩⟩ ::
      stampSpec total_pages report_title (c + 1) ps

/-- Closed form of the trial loop starting at counter `c` with an empty
accumulator: for each trial a cover, then (when readable) its stamped
body pages. -/
def emitSpec {α : Type} (total_pages : Nat) (report_title : String) :
    Nat → List (Doc α) → List (OutPage α)
  | _, [] => []
  | c, d :: ds =>
    let title := splitext_root (basename d.name)
    (match d.pages with
     | none => [⟨PageKind.cover title, ⟨c, total_pages, report_title⟩⟩]
     | some ps =>
       ⟨PageKind.cover title, ⟨c, total_pages, report_title⟩⟩ ::
         stampSpec total_pages report_title (c + 1) ps)
    ++ emitSpec total_pages report_title (c + (get_page_count d + 1)) ds

/-- How far the trial loop advances `current_page`: one cover per trial
plus one per readable body page. -/
def emitted_count {α : Type} (ds : List (Doc α)) : Nat :=
  (ds.map (fun d => get_page_count d + 1)).sum

/-! ### Characterization lemmas -/

theorem stamp_pages_nil {α : Type} (total : Nat) (rt : String)
    (st : List (OutPage α) × Nat) : stamp_pages total rt st [] = st := rfl

theorem stamp_pages_cons {α : Type} (total : Nat) (rt : String)
    (acc : List (OutPage α)) (c : Nat) (p : α) (ps : List α) :
    stamp_pages total rt (acc, c) (p :: ps)
      = stamp_pages total rt
          (acc ++ [⟨PageKind.content p, ⟨c, total, rt⟩⟩], c + 1) ps := rfl

theorem stamp_pages_eq {α : Type} (total : Nat) (rt : String) :
    ∀ (ps : List α) (acc : List (OutPage α)) (c : Nat),
      stamp_pages total rt (acc, c) ps
        = (acc ++ stampSpec total rt c ps, c + ps.length) := by
  intro ps
  induction ps with
  | nil => intro acc c; simp [stamp_pages_nil, stampSpec]
  | cons p ps ih =>
    intro acc c
    rw [stamp_pages_cons, ih]
    refine Prod.ext ?_ ?_
    · simp [stampSpec]
    · simp; omega

theorem emit_trial_none {α : Type} (total : Nat) (rt : String)
    (acc : List (OutPage α)) (c : Nat) (d : Doc α) (hd : d.pages = none) :
    emit_trial total rt (acc, c) d
      = (acc ++ [⟨PageKind.cover (splitext_root (basename d.name)),
           ⟨c, total, rt⟩⟩], c + 1) := by
  simp [emit_trial, hd]

theorem emit_trial_some {α : Type} (total : Nat) (rt : String)
    (acc : List (OutPage α)) (c : Nat) (d : Doc α) (ps : List α)
    (hd : d.pages = some ps) :
    emit_trial total rt (acc, c) d
      = (acc ++ ⟨PageKind.cover (splitext_root (basename d.name)),
             ⟨c, total, rt⟩⟩ :: stampSpec total rt (c + 1) ps,
         c + 1 + ps.length) := by
  simp [emit_trial, hd, stamp_pages_eq, List.append_assoc]

theorem foldl_emit_trial_eq {α : Type} (total : Nat) (rt : String) :
    ∀ (ds : List (Doc α)) (acc : List (OutPage α)) (c : Nat),
      ds.foldl (emit_trial total rt) (acc, c)
        = (acc ++ emitSpec total rt c ds, c + emitted_count ds) := by
  intro ds
  induction ds with
  | nil => intro acc c; simp [emitSpec, emitted_count]
  | cons d ds ih =>
    intro acc c
    rw [List.foldl_cons]
    cases hd : d.pages with
    | none =>
      rw [emit_trial_none total rt acc c d hd, ih]
      refine Prod.ext ?_ ?_
      · simp [emitSpec, hd, get_page_count]
      · simp [emitted_count, get_page_count, hd]; omega
    | some ps =>
      rw [emit_trial_some total rt acc c d ps hd, ih]
      refine Prod.ext ?_ ?_
      · have harg : c + 1 + ps.length = c + (ps.length + 1) := by omega
        simp [emitSpec, hd, get_page_count, harg]
      · simp [emitted_count, get_page_count, hd]; omega

theorem calculate_total_pages_eq {α : Type} (main_pdf : Doc α)
    (ds : List (Doc α)) :
    calculate_total_pages main_pdf ds
      = get_page_count main_pdf + emitted_count ds := by
  suffices h : ∀ (ds : List (Doc α)) (a : Nat),
      ds.foldl (fun total d => total + (get_page_count d + 1)) a
        = a + emitted_count ds from h ds _
  intro ds
  induction ds with
  | nil => intro a; simp [emitted_count]
  | cons d ds ih => intro a; rw [List.foldl_cons, ih]; simp [emitted_count]; omega

theorem composed_pages_eq {α : Type} (main_pdf : Doc α) (mp : List α)
    (trial_pdfs : List (Doc α)) (rt : String)
    (hm : main_pdf.pages = some mp) :
    composed_pages main_pdf trial_pdfs rt
      = some (stampSpec (calculate_total_pages main_pdf trial_pdfs) rt 1 mp
          ++ emitSpec (calculate_total_pages main_pdf trial_pdfs) rt
               (1 + mp.length) trial_pdfs) := by
  simp [composed_pages, hm, stamp_pages_eq, foldl_emit_trial_eq]

theorem stampSpec_length {α : Type} (total : Nat) (rt : String) :
    ∀ (c : Nat) (ps : List α),
      (stampSpec total rt c ps).length = ps.length
  | _, [] => rfl
  | c, _ :: ps => by
    simpa [stampSpec] using stampSpec_length total rt (c + 1) ps

theorem stampSpec_map_num {α : Type} (total : Nat) (rt : String) :
    ∀ (c : Nat) (ps : List α),
      (stampSpec total rt c ps).map (fun pg => pg.spec.page_number)
        = List.range' c ps.length
  | _, [] => rfl
  | c, p :: ps => by
    rw [show (p :: ps).length = ps.length + 1 from rfl, List.range'_succ]
    simpa [stampSpec] using stampSpec_map_num total rt (c + 1) ps

theorem stampSpec_map_kind {α : Type} (total : Nat) (rt : String) :
    ∀ (c : Nat) (ps : List α),
      (stampSpec total rt c ps).map OutPage.kind = ps.map PageKind.content
  | _, [] => rfl
  | c, _ :: ps => by
    simpa [stampSpec] using stampSpec_map_kind total rt (c + 1) ps

theorem stampSpec_total {α : Type} (total : Nat) (rt : String) :
    ∀ (c : Nat) (ps : List α) (pg : OutPage α),
      pg ∈ stampSpec total rt c ps → pg.spec.total_pages = total := by
  intro c ps
  induction ps generalizing c with
  | nil => intro pg h; simp [stampSpec] at h
  | cons p ps ih =>
    intro pg h
    rcases (by simpa [stampSpec] using h) with h1 | h2
    · simp [h1]
    · exact ih (c + 1) pg (by simpa using h2)

theorem emitted_count_cons {α : Type} (d : Doc α) (ds : List (Doc α)) :
    emitted_count (d :: ds) = (get_page_count d + 1) + emitted_count ds := by
  simp [emitted_count]

theorem emitted_count_append {α : Type} (ds1 ds2 : List (Doc α)) :
    emitted_count (ds1 ++ ds2) = emitted_count ds1 + emitted_count ds2 := by
  simp [emitted_count]

theorem emitSpec_length {α : Type} (total : Nat) (rt : String) :
    ∀ (c : Nat) (ds : List (Doc α)),
      (emitSpec total rt c ds).length = emitted_count ds := by
  intro c ds
  induction ds generalizing c with
  | nil => simp [emitSpec, emitted_count]
  | cons d ds ih =>
    cases hd : d.pages with
    | none =>
      simp [emitSpec, hd, emitted_count_cons, get_page_count, ih]; omega
    | some ps =>
      simp [emitSpec, hd, emitted_count_cons, get_page_count, ih,
        stampSpec_length]
      omega

theorem emitSpec_map_num {α : Type} (total : Nat) (rt : String) :
    ∀ (c : Nat) (ds : List (Doc α)),
      (emitSpec total rt c ds).map (fun pg => pg.spec.page_number)
        = List.range' c (emitted_count ds) := by
  intro c ds
  induction ds generalizing c with
  | nil => simp [emitSpec, emitted_count]
  | cons d ds ih =>
    cases hd : d.pages with
    | none =>
      have hc : emitted_count (d :: ds) = emitted_count ds + 1 := by
        rw [emitted_count_cons]; simp [get_page_count, hd]; omega
      rw [hc, List.range'_succ]
      simp [emitSpec, hd, get_page_count, ih]
    | some ps =>
      have hc : emitted_count (d :: ds)
          = emitted_count ds + ps.length + 1 := by
        rw [emitted_count_cons]; simp [get_page_count, hd]; omega
      have harg : c + (ps.length + 1) = c + 1 + ps.length := by omega
      rw [hc, List.range'_succ,
        ← List.range'_append_1 (c + 1) ps.length (emitted_count ds)]
      simp [emitSpec, hd, get_page_count, harg, ih, stampSpec_map_num]

theorem emitSpec_map_kind {α : Type} (total : Nat) (rt : String) :
    ∀ (c : Nat) (ds : List (Doc α)),
      (emitSpec total rt c ds).map OutPage.kind
        = ds.flatMap (fun d =>
            PageKind.cover (splitext_root (basename d.name)) ::
              (d.pages.getD []).map PageKind.content) := by
  intro c ds
  induction ds generalizing c with
  | nil => simp [emitSpec]
  | cons d ds ih =>
    cases hd : d.pages with
    | none => simp [emitSpec, hd, ih]
    | some ps => simp [emitSpec, hd, ih, stampSpec_map_kind]

theorem emitSpec_total {α : Type} (total : Nat) (rt : String) :
    ∀ (c : Nat) (ds : List (Doc α)) (pg : OutPage α),
      pg ∈ emitSpec total rt c ds → pg.spec.total_pages = total := by
  intro c ds
  induction ds generalizing c with
  | nil => intro pg h; simp [emitSpec] at h
  | cons d ds ih =>
    intro pg h
    cases hd : d.pages with
    | none =>
      rcases (by simpa [emitSpec, hd] using h) with h1 | h2
      · simp [h1]
      · exact ih _ pg h2
    | some ps =>
      rcases (by simpa [emitSpec, hd] using h) with h1 | h2 | h3
      · simp [h1]
      · exact stampSpec_total total rt _ ps pg h2
      · exact ih _ pg h3

theorem emitSpec_append {α : Type} (total : Nat) (rt : String) :
    ∀ (ds1 ds2 : List (Doc α)) (c : Nat),
      emitSpec total rt c (ds1 ++ ds2)
        = emitSpec total rt c ds1
          ++ emitSpec total rt (c + emitted_count ds1) ds2 := by
  intro ds1
  induction ds1 with
  | nil => intro ds2 c; simp [emitSpec, emitted_count]
  | cons d ds1 ih =>
    intro ds2 c
    have harg : c + (get_page_count d + 1) + emitted_count ds1
        = c + emitted_count (d :: ds1) := by
      rw [emitted_count_cons]; omega
    cases hd : d.pages with
    | none => simp [emitSpec, hd, ih, ← harg]
    | some ps => simp [emitSpec, hd, ih, ← harg]

theorem get_page_count_main {α : Type} (main_pdf : Doc α) (mp : List α)
    (hm : main_pdf.pages = some mp) : get_page_count main_pdf = mp.length := by
  simp [get_page_count, hm]

theorem total_split {α : Type} (main_pdf : Doc α) (mp : List α)
    (trial_pdfs : List (Doc α)) (hm : main_pdf.pages = some mp) :
    calculate_total_pages main_pdf trial_pdfs
      = emitted_count trial_pdfs + mp.length := by
  rw [calculate_total_pages_eq, get_page_count_main main_pdf mp hm]
  omega

theorem composed_map_num {α : Type} (main_pdf : Doc α) (mp : List α)
    (trial_pdfs : List (Doc α)) (rt : String)
    (hm : main_pdf.pages = some mp) :
    (stampSpec (calculate_total_pages main_pdf trial_pdfs) rt 1 mp
      ++ emitSpec (calculate_total_pages main_pdf trial_pdfs) rt
           (1 + mp.length) trial_pdfs).map (fun pg => pg.spec.page_number)
      = List.range' 1 (calculate_total_pages main_pdf trial_pdfs) := by
  rw [List.map_append, stampSpec_map_num, emitSpec_map_num,
    total_split main_pdf mp trial_pdfs hm,
    ← List.range'_append_1 1 mp.length (emitted_count trial_pdfs)]

theorem composed_length {α : Type} (main_pdf : Doc α) (mp : List α)
    (trial_pdfs : List (Doc α)) (rt : String)
    (hm : main_pdf.pages = some mp) :
    (stampSpec (calculate_total_pages main_pdf trial_pdfs) rt 1 mp
      ++ emitSpec (calculate_total_pages main_pdf trial_pdfs) rt
           (1 + mp.length) trial_pdfs).length
      = calculate_total_pages main_pdf trial_pdfs := by
  rw [List.length_append, stampSpec_length, emitSpec_length,
    total_split main_pdf mp trial_pdfs hm]
  omega

/-! ### Concrete documents used by the witnesses -/

def mainDoc : Doc Nat := ⟨"/tmp/Main Report.pdf", some [10, 11]⟩

def badDoc : Doc Nat := ⟨"/tmp/trials/Trial 1.pdf", none⟩

def okDoc : Doc Nat := ⟨"/tmp/trials/Trial 2.pdf", some [20]⟩

/-! ### Claims -/

/-- C1: `calculate_total_pages` on a main document and trials returns the
main page count plus, for each trial, its page count plus one for its
cover; a source whose pages cannot be read or parsed contributes a
count of `0` instead of aborting. -/
theorem claim_c1 {α : Type} (main_pdf : Doc α) (trial_pdfs : List (Doc α)) :
    calculate_total_pages main_pdf trial_pdfs
      = get_page_count main_pdf
        + ((trial_pdfs.map (fun d => get_page_count d + 1)).sum)
    ∧ ∀ d : Doc α, d.pages = none → get_page_count d = 0 := by
  refine ⟨?_, ?_⟩
  · rw [calculate_total_pages_eq]; rfl
  · intro d hd; simp [get_page_count, hd]

/-- Witness for C1 at a 2-page main, an unreadable trial and a 1-page
trial. -/
theorem claim_c1_witness :
    calculate_total_pages mainDoc [badDoc, okDoc]
        = get_page_count mainDoc
          + (([badDoc, okDoc].map (fun d => get_page_count d + 1)).sum)
    ∧ get_page_count badDoc = 0 :=
  ⟨(claim_c1 mainDoc [badDoc, okDoc]).1,
   (claim_c1 mainDoc [badDoc, okDoc]).2 badDoc rfl⟩

/-- C2: when the main document and every trial load successfully, the
stamped page numbers are exactly `1, 2, ..., total` in emission order
(main pages, then each trial's cover followed by its body pages), and
the number of appended pages equals the Phase-1 total. -/
theorem claim_c2 {α : Type} (main_pdf : Doc α) (mp : List α)
    (trial_pdfs : List (Doc α)) (rt : String)
    (hm : main_pdf.pages = some mp)
    (ht : ∀ d ∈ trial_pdfs, d.pages.isSome) :
    ∃ out, create_final_report main_pdf trial_pdfs true rt = some out
      ∧ out.map (fun pg => pg.spec.page_number)
          = List.range' 1 (calculate_total_pages main_pdf trial_pdfs)
      ∧ out.length = calculate_total_pages main_pdf trial_pdfs
      ∧ out.map OutPage.kind
          = mp.map PageKind.content
            ++ trial_pdfs.flatMap (fun d =>
                PageKind.cover (splitext_root (basename d.name)) ::
                  (d.pages.getD []).map PageKind.content) := by
  have hcp := composed_pages_eq main_pdf mp trial_pdfs rt hm
  refine ⟨stampSpec (calculate_total_pages main_pdf trial_pdfs) rt 1 mp
      ++ emitSpec (calculate_total_pages main_pdf trial_pdfs) rt
           (1 + mp.length) trial_pdfs, ?_, ?_, ?_, ?_⟩
  · simp [create_final_report, hcp]
  · exact composed_map_num main_pdf mp trial_pdfs rt hm
  · exact composed_length main_pdf mp trial_pdfs rt hm
  · rw [List.map_append, stampSpec_map_kind, emitSpec_map_kind]

/-- Witness for C2 at a 2-page main and a single readable 1-page trial. -/
theorem claim_c2_witness :
    ∃ out, create_final_report mainDoc [okDoc] true "Quarterly" = some out
      ∧ out.map (fun pg => pg.spec.page_number)
          = List.range' 1 (calculate_total_pages mainDoc [okDoc])
      ∧ out.length = calculate_total_pages mainDoc [okDoc]
      ∧ out.map OutPage.kind
          = [10, 11].map PageKind.content
            ++ [okDoc].flatMap (fun d =>
                PageKind.cover (splitext_root (basename d.name)) ::
                  (d.pages.getD []).map PageKind.content) :=
  claim_c2 mainDoc [10, 11] [okDoc] "Quarterly" rfl (by decide)

/-- C3: a trial that fails to open is caught at the per-trial boundary —
every trial, readable or not, still contributes its cover to the output
and the run continues; in particular a 2-page main, an unreadable
trial 1 and a 1-page trial 2 give total `5` and the output
main-1, main-2, cover-1, cover-2, trial-2 page, numbered 1..5. -/
theorem claim_c3 {α : Type} :
    (∀ (main_pdf : Doc α) (mp : List α) (trial_pdfs : List (Doc α))
        (rt : String) (out : List (OutPage α)),
      main_pdf.pages = some mp →
      create_final_report main_pdf trial_pdfs true rt = some out →
      ∀ d ∈ trial_pdfs,
        PageKind.cover (splitext_root (basename d.name)) ∈
          out.map OutPage.kind)
    ∧ ∀ (a b c : α) (nm n1 n2 rt : String),
        calculate_total_pages (⟨nm, some [a, b]⟩ : Doc α)
            [⟨n1, none⟩, ⟨n2, some [c]⟩] = 5
        ∧ create_final_report (⟨nm, some [a, b]⟩ : Doc α)
              [⟨n1, none⟩, ⟨n2, some [c]⟩] true rt
            = some
              [⟨PageKind.content a, ⟨1, 5, rt⟩⟩,
               ⟨PageKind.content b, ⟨2, 5, rt⟩⟩,
               ⟨PageKind.cover (splitext_root (basename n1)), ⟨3, 5, rt⟩⟩,
               ⟨PageKind.cover (splitext_root (basename n2)), ⟨4, 5, rt⟩⟩,
               ⟨PageKind.content c, ⟨5, 5, rt⟩⟩] := by
  constructor
  · intro main_pdf mp trial_pdfs rt out hm hrun d hd
    have hcp := composed_pages_eq main_pdf mp trial_pdfs rt hm
    have hout : out
        = stampSpec (calculate_total_pages main_pdf trial_pdfs) rt 1 mp
          ++ emitSpec (calculate_total_pages main_pdf trial_pdfs) rt
               (1 + mp.length) trial_pdfs := by
      simp [create_final_report, hcp] at hrun
      exact hrun.symm
    subst hout
    rw [List.map_append, emitSpec_map_kind]
    refine List.mem_append_right _ ?_
    exact List.mem_flatMap.2 ⟨d, hd, by simp⟩
  · intro a b c nm n1 n2 rt
    exact ⟨rfl, rfl⟩

/-- Witness for C3: the cover of the unreadable trial is present in the
output of the 5-page scenario. -/
theorem claim_c3_witness :
    PageKind.cover (splitext_root (basename badDoc.name)) ∈
      List.map OutPage.kind
        [⟨PageKind.content 10, ⟨1, 5, "R"⟩⟩,
         ⟨PageKind.content 11, ⟨2, 5, "R"⟩⟩,
         ⟨PageKind.cover (splitext_root (basename badDoc.name)),
           ⟨3, 5, "R"⟩⟩,
         ⟨PageKind.cover (splitext_root (basename okDoc.name)),
           ⟨4, 5, "R"⟩⟩,
         ⟨PageKind.content 20, ⟨5, 5, "R"⟩⟩] :=
  (claim_c3 (α := Nat)).1 mainDoc [10, 11] [badDoc, okDoc] "R" _ rfl rfl
    badDoc (by decide)

/-- C4: when the main document cannot be opened or enumerated the whole
run aborts with `None` and the write phase (opening the destination) is
never reached. -/
theorem claim_c4 {α : Type} (main_pdf : Doc α) (trial_pdfs : List (Doc α))
    (write_ok : Bool) (rt : String) (hm : main_pdf.pages = none) :
    create_final_report main_pdf trial_pdfs write_ok rt = none
    ∧ reaches_write_phase main_pdf = false := by
  constructor
  · simp [create_final_report, composed_pages, hm]
  · simp [reaches_write_phase, hm]

/-- Witness for C4 at an unreadable main document. -/
theorem claim_c4_witness :
    create_final_report (⟨"broken.pdf", none⟩ : Doc Nat) [okDoc] true "R"
        = none
    ∧ reaches_write_phase (⟨"broken.pdf", none⟩ : Doc Nat) = false :=
  claim_c4 ⟨"broken.pdf", none⟩ [okDoc] true "R" rfl

/-- C5: a successfully processed trial contributes exactly one cover page,
placed immediately before its first body page, titled with the trial's
source filename stripped of directory and extension (no sanitization),
and numbered with the `current_page` value at the moment of its
emission (one past the pages emitted for the main document and the
earlier trials). -/
theorem claim_c5 {α : Type} (main_pdf : Doc α) (mp : List α)
    (pre : List (Doc α)) (d : Doc α) (post : List (Doc α)) (ps : List α)
    (rt : String) (hm : main_pdf.pages = some mp) (hd : d.pages = some ps) :
    create_final_report main_pdf (pre ++ d :: post) true rt
      = some
        (stampSpec (calculate_total_pages main_pdf (pre ++ d :: post)) rt
           1 mp
         ++ emitSpec (calculate_total_pages main_pdf (pre ++ d :: post)) rt
              (1 + mp.length) pre
         ++ (⟨PageKind.cover (splitext_root (basename d.name)),
               ⟨1 + mp.length + emitted_count pre,
                calculate_total_pages main_pdf (pre ++ d :: post), rt⟩⟩
             :: stampSpec
                  (calculate_total_pages main_pdf (pre ++ d :: post)) rt
                  (1 + mp.length + emitted_count pre + 1) ps)
         ++ emitSpec (calculate_total_pages main_pdf (pre ++ d :: post)) rt
              (1 + mp.length + emitted_count pre + (ps.length + 1)) post) := by
  have hcp := composed_pages_eq main_pdf mp (pre ++ d :: post) rt hm
  simp only [create_final_report, hcp, if_true]
  rw [emitSpec_append]
  simp [emitSpec, hd, get_page_count, List.append_assoc]

/-- Witness for C5: the readable trial after an unreadable one. -/
theorem claim_c5_witness :
    create_final_report mainDoc ([badDoc] ++ okDoc :: []) true "R"
      = some
        (stampSpec (calculate_total_pages mainDoc ([badDoc] ++ okDoc :: []))
           "R" 1 [10, 11]
         ++ emitSpec (calculate_total_pages mainDoc ([badDoc] ++ okDoc :: []))
              "R" (1 + List.length [10, 11]) [badDoc]
         ++ (⟨PageKind.cover (splitext_root (basename okDoc.name)),
               ⟨1 + List.length [10, 11] + emitted_count [badDoc],
                calculate_total_pages mainDoc ([badDoc] ++ okDoc :: []),
                "R"⟩⟩
             :: stampSpec
                  (calculate_total_pages mainDoc ([badDoc] ++ okDoc :: []))
                  "R" (1 + List.length [10, 11] + emitted_count [badDoc] + 1)
                  [20])
         ++ emitSpec (calculate_total_pages mainDoc ([badDoc] ++ okDoc :: []))
              "R"
              (1 + List.length [10, 11] + emitted_count [badDoc]
                + (List.length [20] + 1)) []) :=
  claim_c5 mainDoc [10, 11] [badDoc] okDoc [] [20] "R" rfl rfl

/-- C6: the footer painted by `create_cover_page` is identical to the one
produced by `create_page_number_overlay` for the same
`(page_num, total_pages, report_title)` triple: the cover's drawing
operations are exactly its two title operations followed by the
overlay's operations. -/
theorem claim_c6 (sw : String → String → ℚ → ℚ) (title : String)
    (page_num total_pages : Nat) (report_title : String) :
    create_cover_page sw title page_num total_pages report_title
      = cover_title_ops sw title
        ++ create_page_number_overlay sw page_num total_pages report_title := by
  simp [create_cover_page, cover_title_ops, create_page_number_overlay]

/-- C7: every `FooterSpec` built during the composition phase satisfies
`1 ≤ page_number ≤ total_pages`, with `total_pages` the Phase-1 value of
`calculate_total_pages`, including runs with unreadable trials. -/
theorem claim_c7 {α : Type} (main_pdf : Doc α) (trial_pdfs : List (Doc α))
    (rt : String) (out : List (OutPage α))
    (h : composed_pages main_pdf trial_pdfs rt = some out) :
    ∀ pg ∈ out,
      1 ≤ pg.spec.page_number
      ∧ pg.spec.page_number ≤ calculate_total_pages main_pdf trial_pdfs
      ∧ pg.spec.total_pages = calculate_total_pages main_pdf trial_pdfs := by
  cases hm : main_pdf.pages with
  | none => simp [composed_pages, hm] at h
  | some mp =>
    have hcp := composed_pages_eq main_pdf mp trial_pdfs rt hm
    rw [h] at hcp
    obtain rfl := Option.some.inj hcp
    intro pg hpg
    have hnum : pg.spec.page_number
        ∈ List.range' 1 (calculate_total_pages main_pdf trial_pdfs) := by
      rw [← composed_map_num main_pdf mp trial_pdfs rt hm]
      exact List.mem_map_of_mem _ hpg
    rw [List.mem_range'] at hnum
    obtain ⟨i, hi, hnumeq⟩ := hnum
    refine ⟨by omega, by omega, ?_⟩
    rcases List.mem_append.1 hpg with h1 | h2
    · exact stampSpec_total _ rt _ mp pg h1
    · exact emitSpec_total _ rt _ trial_pdfs pg h2

/-- Witness for C7: the first page of the unreadable-trial run. -/
theorem claim_c7_witness :
    1 ≤ (⟨PageKind.content 10, ⟨1, 5, "R"⟩⟩ : OutPage Nat).spec.page_number
    ∧ (⟨PageKind.content 10, ⟨1, 5, "R"⟩⟩ : OutPage Nat).spec.page_number
        ≤ calculate_total_pages mainDoc [badDoc, okDoc]
    ∧ (⟨PageKind.content 10, ⟨1, 5, "R"⟩⟩ : OutPage Nat).spec.total_pages
        = calculate_total_pages mainDoc [badDoc, okDoc] :=
  claim_c7 mainDoc [badDoc, okDoc] "R"
    [⟨PageKind.content 10, ⟨1, 5, "R"⟩⟩,
     ⟨PageKind.content 11, ⟨2, 5, "R"⟩⟩,
     ⟨PageKind.cover (splitext_root (basename badDoc.name)), ⟨3, 5, "R"⟩⟩,
     ⟨PageKind.cover (splitext_root (basename okDoc.name)), ⟨4, 5, "R"⟩⟩,
     ⟨PageKind.content 20, ⟨5, 5, "R"⟩⟩]
    rfl ⟨PageKind.content 10, ⟨1, 5, "R"⟩⟩ (by decide)

/-- C8: when writing the composed output fails, `create_final_report`
returns `None` (never a success value). -/
theorem claim_c8 {α : Type} (main_pdf : Doc α) (trial_pdfs : List (Doc α))
    (rt : String) :
    create_final_report main_pdf trial_pdfs false rt = none := by
  cases h : composed_pages main_pdf trial_pdfs rt <;>
    simp [create_final_report, h]

/-- C9: with an empty trial list and a readable main document the run
succeeds, the output is exactly the main document's pages with no cover
pages, and every page is stamped with `total_pages` equal to the main
document's own page count. -/
theorem claim_c9 {α : Type} (main_pdf : Doc α) (mp : List α) (rt : String)
    (hm : main_pdf.pages = some mp) :
    ∃ out, create_final_report main_pdf [] true rt = some out
      ∧ out.length = mp.length
      ∧ out.map OutPage.kind = mp.map PageKind.content
      ∧ ∀ pg ∈ out, pg.spec.total_pages = mp.length := by
  have htot : calculate_total_pages main_pdf ([] : List (Doc α))
      = mp.length := by
    rw [calculate_total_pages_eq, get_page_count_main main_pdf mp hm]
    simp [emitted_count]
  have hcp := composed_pages_eq main_pdf mp [] rt hm
  refine ⟨stampSpec (calculate_total_pages main_pdf []) rt 1 mp
      ++ emitSpec (calculate_total_pages main_pdf []) rt (1 + mp.length) [],
    ?_, ?_, ?_, ?_⟩
  · simp [create_final_report, hcp]
  · simp [emitSpec, stampSpec_length]
  · simp [emitSpec, stampSpec_map_kind]
  · intro pg hpg
    rw [← htot]
    refine stampSpec_total _ rt 1 mp pg ?_
    simpa [emitSpec] using hpg

/-- Witness for C9 at the 2-page main document. -/
theorem claim_c9_witness :
    ∃ out, create_final_report mainDoc [] true "R" = some out
      ∧ out.length = List.length [10, 11]
      ∧ out.map OutPage.kind = [10, 11].map PageKind.content
      ∧ ∀ pg ∈ out, pg.spec.total_pages = List.length [10, 11] :=
  claim_c9 mainDoc [10, 11] "R" rfl

/-- C10: whenever the state entering a page- or trial-processing step
satisfies `current_page = pages appended + 1`, the state leaving it does
too — also on the failed-trial path — and consequently the page numbers
of any composed run are the consecutive sequence `1, ..., length`. -/
theorem claim_c10 {α : Type} :
    (∀ (total : Nat) (rt : String) (acc : List (OutPage α)) (c : Nat)
        (ps : List α), c = acc.length + 1 →
      (stamp_pages total rt (acc, c) ps).2
        = (stamp_pages total rt (acc, c) ps).1.length + 1)
    ∧ (∀ (total : Nat) (rt : String) (acc : List (OutPage α)) (c : Nat)
        (d : Doc α), c = acc.length + 1 →
      (emit_trial total rt (acc, c) d).2
        = (emit_trial total rt (acc, c) d).1.length + 1)
    ∧ (∀ (main_pdf : Doc α) (trial_pdfs : List (Doc α)) (rt : String)
        (out : List (OutPage α)),
      composed_pages main_pdf trial_pdfs rt = some out →
      out.map (fun pg => pg.spec.page_number)
        = List.range' 1 out.length) := by
  refine ⟨?_, ?_, ?_⟩
  · intro total rt acc c ps hc
    rw [stamp_pages_eq]
    simp [stampSpec_length]
    omega
  · intro total rt acc c d hc
    cases hd : d.pages with
    | none =>
      rw [emit_trial_none total rt acc c d hd]
      simp
      omega
    | some ps =>
      rw [emit_trial_some total rt acc c d ps hd]
      simp [stampSpec_length]
      omega
  · intro main_pdf trial_pdfs rt out h
    cases hm : main_pdf.pages with
    | none => simp [composed_pages, hm] at h
    | some mp =>
      have hcp := composed_pages_eq main_pdf mp trial_pdfs rt hm
      rw [h] at hcp
      obtain rfl := Option.some.inj hcp
      rw [composed_map_num main_pdf mp trial_pdfs rt hm,
        composed_length main_pdf mp trial_pdfs rt hm]

/-- Witness for C10: the counter invariant at concrete states and the
consecutive numbering of the unreadable-trial run. -/
theorem claim_c10_witness :
    ((stamp_pages 5 "R" (([] : List (OutPage Nat)), 1) [10, 11]).2
        = (stamp_pages 5 "R" (([] : List (OutPage Nat)), 1) [10, 11]).1.length
            + 1)
    ∧ ((emit_trial 5 "R" (([] : List (OutPage Nat)), 1) badDoc).2
        = (emit_trial 5 "R" (([] : List (OutPage Nat)), 1) badDoc).1.length
            + 1)
    ∧ List.map (fun pg => pg.spec.page_number)
          [(⟨PageKind.content 10, ⟨1, 5, "R"⟩⟩ : OutPage Nat),
           ⟨PageKind.content 11, ⟨2, 5, "R"⟩⟩,
           ⟨PageKind.cover (splitext_root (basename badDoc.name)),
             ⟨3, 5, "R"⟩⟩,
           ⟨PageKind.cover (splitext_root (basename okDoc.name)),
             ⟨4, 5, "R"⟩⟩,
           ⟨PageKind.content 20, ⟨5, 5, "R"⟩⟩]
        = List.range' 1
            (List.length
              [(⟨PageKind.content 10, ⟨1, 5, "R"⟩⟩ : OutPage Nat),
               ⟨PageKind.content 11, ⟨2, 5, "R"⟩⟩,
               ⟨PageKind.cover (splitext_root (basename badDoc.name)),
                 ⟨3, 5, "R"⟩⟩,
               ⟨PageKind.cover (splitext_root (basename okDoc.name)),
                 ⟨4, 5, "R"⟩⟩,
               ⟨PageKind.content 20, ⟨5, 5, "R"⟩⟩]) :=
  ⟨(claim_c10 (α := Nat)).1 5 "R" [] 1 [10, 11] rfl,
   (claim_c10 (α := Nat)).2.1 5 "R" [] 1 badDoc rfl,
   (claim_c10 (α := Nat)).2.2 mainDoc [badDoc, okDoc] "R" _ rfl⟩

end PdfMerger
